import Mathlib

/-!
Verification development for the `adcp_qartod_qaqc` repository: a shallow
embedding of its QARTOD test battery and sessions, with theorems checking
the repository's specification against the code.

Embedded source files:

* `src/adcp_qartod_qaqc/tests.py` — the pure test battery (functions keep
  their Python names; the `ADCP_FLAGS` dict entries become the constants
  `ADCP_FLAGS_good`, …, with the same numeric codes).
* `src/adcp_qartod_qaqc/trdi.py` — the single-ensemble session class
  `TRDIQAQC`: its `__calc_bottom_stats` bottom-tracking scan, the cached
  bottom statistics, and the windowed per-test accessor methods.
* `src/adcp_qartod_qaqc/trdiUH.py` — the bottom-tracking scan of
  `set_ensemble_bottom_stats`, which differs from `trdi.py` by using the
  signed (not absolute) echo-intensity difference.

Modelling conventions:

* Python ints are `ℤ`/`ℕ`; Python floats are modelled as exact rationals
  `ℚ` (the properties under verification depend on window boundaries and
  comparisons, not on IEEE rounding).
* Python 2 `/` on two ints floors (`Int.fdiv`); `int()` applied to a float
  truncates toward zero (`pyInt` below); `int()` applied to an int is the
  identity.
* Python list slicing `xs[:n]` is `pyTake xs n`, including the negative-`n`
  semantics (a negative bound counts from the end of the list).
* The transcendental calls of `__calc_bottom_stats` and
  `__read_velocities` (`math.cos`, `abs` of a complex number,
  `math.atan2`) are modelled as explicit rational-valued parameters
  (`cos_beam_angle : ℚ`, `mag dir : ℚ → ℚ → ℚ`) supplied to the session
  constructor, standing for the float values the math library returns.
  Concrete instantiations below pick inputs where those library values
  are exact (`cos 0 = 1`, `abs (u + 0j) = |u|`).
-/

/-- Entry `ADCP_FLAGS['good']` of `tests.py`. -/
def ADCP_FLAGS_good : ℤ := 1

/-- Entry `ADCP_FLAGS['no_test']` of `tests.py`. -/
def ADCP_FLAGS_no_test : ℤ := 2

/-- Entry `ADCP_FLAGS['suspect']` of `tests.py`. -/
def ADCP_FLAGS_suspect : ℤ := 3

/-- Entry `ADCP_FLAGS['bad']` of `tests.py`. -/
def ADCP_FLAGS_bad : ℤ := 4

/-- Entry `ADCP_FLAGS['missing_data']` of `tests.py`. -/
def ADCP_FLAGS_missing_data : ℤ := 9

/-- Function `tests.battery_flag_test(ensemble)`: always `no_test`. -/
def battery_flag_test {α : Type} (ensemble : α) : ℤ := ADCP_FLAGS_no_test

/-- Function `tests.checksum_test(ensemble)`: always `good`. -/
def checksum_test {α : Type} (ensemble : α) : ℤ := ADCP_FLAGS_good

/-- Function `tests.bit_test(bit_flag)`: `good` iff the flag string equals
the one-character string zero. -/
def bit_test (bit_flag : String) : ℤ :=
  if bit_flag = "0" then ADCP_FLAGS_good else ADCP_FLAGS_bad

/-- Function `tests.orientation_test(pitch, roll, max_pitch, max_roll)`. -/
def orientation_test (pitch roll max_pitch max_roll : ℚ) : ℤ :=
  if |pitch| < max_pitch ∧ |roll| < max_roll then ADCP_FLAGS_good
  else ADCP_FLAGS_bad

/-- Function `tests.sound_speed_test(sound_speed_velocity, ...)`. -/
def sound_speed_test (sound_speed_velocity sound_speed_min sound_speed_max : ℚ) : ℤ :=
  if sound_speed_min ≤ sound_speed_velocity ∧ sound_speed_velocity ≤ sound_speed_max then
    ADCP_FLAGS_good
  else ADCP_FLAGS_bad

/-- Function `tests.noise_floor_test(ensemble)`: always `no_test`. -/
def noise_floor_test {α : Type} (ensemble : α) : ℤ := ADCP_FLAGS_no_test

/-- Function `tests.signal_strength_flag(ensemble)`: always `no_test`. -/
def signal_strength_flag {α : Type} (ensemble : α) : ℤ := ADCP_FLAGS_no_test

/-- Function `tests.signal_to_noise_test(ensemble)`: always `no_test`. -/
def signal_to_noise_test {α : Type} (ensemble : α) : ℤ := ADCP_FLAGS_no_test

/-- Function `tests.stuck_sensor_test(ensemble)`: always `no_test`. -/
def stuck_sensor_test {α : Type} (ensemble : α) : ℤ := ADCP_FLAGS_no_test

/-- Per-bin body of the loop of `tests.correlation_magnitude_test`: count
the beams per category with the `if/elif/else` chain, then flag the bin. -/
def corr_bin_flag (good_tolerance suspect_tolerance : ℤ) (bin : List ℤ) : ℤ :=
  let good := bin.countP (fun beam_correlation => decide (good_tolerance ≤ beam_correlation))
  let suspect := bin.countP (fun beam_correlation =>
    decide (beam_correlation < good_tolerance ∧ suspect_tolerance ≤ beam_correlation))
  if good = bin.length then ADCP_FLAGS_good
  else if 3 ≤ good + suspect then ADCP_FLAGS_suspect
  else ADCP_FLAGS_bad

/-- Function `tests.correlation_magnitude_test(ensemble_correlation,
good_tolerance=115, suspect_tolerance=64)`. -/
def correlation_magnitude_test (ensemble_correlation : List (List ℤ))
    (good_tolerance suspect_tolerance : ℤ) : List ℤ :=
  ensemble_correlation.map (corr_bin_flag good_tolerance suspect_tolerance)

/-- Function `tests.percent_good_test(one_bad_percent_data,
all_good_percent_data, percent_good=21, percent_bad=17)`; `izip` pairs
the two arrays up to the shorter length. -/
def percent_good_test (one_bad_percent_data all_good_percent_data : List ℤ)
    (percent_good percent_bad : ℤ) : List ℤ :=
  (List.zip one_bad_percent_data all_good_percent_data).map (fun p =>
    if percent_good ≤ p.1 + p.2 then ADCP_FLAGS_good
    else if p.1 + p.2 ≤ percent_bad then ADCP_FLAGS_bad
    else ADCP_FLAGS_suspect)

/-- Function `tests.current_speed_test(current_speed, max_speed=150)`. -/
def current_speed_test (current_speed : List ℚ) (max_speed : ℚ) : List ℤ :=
  current_speed.map (fun speed =>
    if speed ≤ max_speed then ADCP_FLAGS_good else ADCP_FLAGS_bad)

/-- In-loop normalisation of `tests.current_direction_test`: a negative
direction gets `360` added once. -/
def normalize_direction (direction : ℚ) : ℚ :=
  if direction < 0 then direction + 360 else direction

/-- Function `tests.current_direction_test(current_direction)`. -/
def current_direction_test (current_direction : List ℚ) : List ℤ :=
  current_direction.map (fun direction =>
    if normalize_direction direction ≤ 360 then ADCP_FLAGS_good else ADCP_FLAGS_bad)

/-- Function `tests.horizontal_velocity_test(u, v, max_u_velocity=150,
max_v_velocity=150)`; `izip` pairs `u` and `v` up to the shorter length. -/
def horizontal_velocity_test (u v : List ℚ) (max_u_velocity max_v_velocity : ℚ) : List ℤ :=
  (List.zip u v).map (fun p =>
    if max_u_velocity < |p.1| ∨ max_v_velocity < |p.2| then ADCP_FLAGS_bad
    else ADCP_FLAGS_good)

/-- Function `tests.vertical_velocity_test(w, max_w_velocity=15)`. -/
def vertical_velocity_test (w : List ℚ) (max_w_velocity : ℚ) : List ℤ :=
  w.map (fun vel => if |vel| ≤ max_w_velocity then ADCP_FLAGS_good else ADCP_FLAGS_bad)

/-- Function `tests.error_velocity_test(error_velocities,
suspect_error_velocity=2.6, bad_error_velocity=5.2)`. -/
def error_velocity_test (error_velocities : List ℚ)
    (suspect_error_velocity bad_error_velocity : ℚ) : List ℤ :=
  error_velocities.map (fun error_vel =>
    if error_vel < suspect_error_velocity then ADCP_FLAGS_good
    else if error_vel < bad_error_velocity then ADCP_FLAGS_suspect
    else ADCP_FLAGS_bad)

/-- Per-pair body of the loop of `tests.echo_intensity_test`: count the
beams whose drop `prev - curr` is below `tolerance`, then flag the bin.
Echo intensities are raw integer counts, so the `int()` casts of the
source are the identity. -/
def echo_pair_flag (tolerance : ℤ) (bin_prev bin_curr : List ℤ) : ℤ :=
  let bin_flag_count := (List.zip bin_prev bin_curr).countP (fun p =>
    decide (p.1 - p.2 < tolerance))
  if bin_flag_count = 0 then ADCP_FLAGS_good
  else if bin_flag_count = 1 then ADCP_FLAGS_suspect
  else ADCP_FLAGS_bad

/-- Function `tests.echo_intensity_test(echo_intensities, tolerance=2)`:
the flag list starts as the literal `[1]` and grows by one flag per
adjacent bin pair (`zip(echo_intensities, echo_intensities[1:])`). -/
def echo_intensity_test (echo_intensities : List (List ℤ)) (tolerance : ℤ) : List ℤ :=
  1 :: (List.zip echo_intensities echo_intensities.tail).map (fun p =>
    echo_pair_flag tolerance p.1 p.2)

/-- Function `tests.range_drop_off_test(echo_intensities,
drop_off_limit=60)`. -/
def range_drop_off_test (echo_intensities : List (List ℤ)) (drop_off_limit : ℤ) : List ℤ :=
  echo_intensities.map (fun bin =>
    if 2 ≤ bin.countP (fun beam => decide (beam < drop_off_limit)) then ADCP_FLAGS_bad
    else ADCP_FLAGS_good)

/-- Function `tests.current_speed_gradient_test(current_speed,
tolerance=6)`: the flag list starts as the literal `[1]` and grows by one
flag per adjacent speed pair. -/
def current_speed_gradient_test (current_speed : List ℚ) (tolerance : ℚ) : List ℤ :=
  1 :: (List.zip current_speed current_speed.tail).map (fun p =>
    if |p.2 - p.1| ≤ tolerance then ADCP_FLAGS_good else ADCP_FLAGS_bad)

/-- Decoded PD0 ensemble record consumed by `trdi.TRDIQAQC`: one entry
per bin of `data['velocity']['data']` (u, v, w, error velocity),
`data['correlation']['data']`, `data['echo_intensity']['data']` and
`data['percent_good']['data']` (four per-bin counters), plus the
`fixed_leader` scalars used by `__calc_bottom_stats` and the
`variable_leader` transducer depth. -/
structure PD0Data where
  velocity : List (ℚ × ℚ × ℚ × ℚ)
  correlation : List (List ℤ)
  echo_intensity : List (List ℤ)
  percent_good : List (ℤ × ℤ × ℤ × ℤ)
  bin_1_distance : ℤ
  depth_cell_length : ℤ
  beam_angle : ℚ
  depth_of_transducer : ℤ

/-- Python list slicing `xs[:n]` for an integer bound `n`: a non-negative
bound takes a prefix, a negative bound drops `|n|` elements from the end
(clamped to the empty list). -/
def pyTake {α : Type} (xs : List α) (n : ℤ) : List α :=
  if 0 ≤ n then xs.take n.toNat else xs.take (xs.length - (-n).toNat)

/-- Python `int()` on a float value: truncation toward zero. -/
def pyInt (q : ℚ) : ℤ := if 0 ≤ q then ⌊q⌋ else -⌊-q⌋

/-- Loop of the bottom-tracking scan shared by
`trdi.TRDIQAQC.__calc_bottom_stats` and
`trdiUH.TRDIQAQC.set_ensemble_bottom_stats`, abstracted over the per-pair
beam count `jump`: walk adjacent bin pairs, adding one to `bottom_bin`
while fewer than two beams jump, and stop at the first pair where at
least two beams jump.  Returns the number of increments applied to the
initial `bottom_bin = 1`. -/
def bottom_scan (jump : List ℤ → List ℤ → ℕ) : List (List ℤ) → ℕ
  | bin_prev :: bin_curr :: rest =>
      if jump bin_prev bin_curr < 2 then 1 + bottom_scan jump (bin_curr :: rest)
      else 0
  | _ => 0

/-- Per-pair beam count of `trdi.TRDIQAQC.__calc_bottom_stats`: beams
whose absolute echo-intensity difference `abs(beam_curr - beam_prev)`
exceeds `tolerance`. -/
def abs_jump_count (tolerance : ℤ) (bin_prev bin_curr : List ℤ) : ℕ :=
  (List.zip bin_prev bin_curr).countP (fun p => decide (tolerance < |p.2 - p.1|))

/-- Per-pair beam count of `trdiUH.TRDIQAQC.set_ensemble_bottom_stats`:
beams whose signed echo-intensity difference
`int(beam_curr) - int(beam_prev)` exceeds `tolerance` (no absolute value
is taken in that variant). -/
def signed_jump_count (tolerance : ℤ) (bin_prev bin_curr : List ℤ) : ℕ :=
  (List.zip bin_prev bin_curr).countP (fun p => decide (tolerance < p.2 - p.1))

/-- Value `bottom_bin` as computed by `trdi.TRDIQAQC.__calc_bottom_stats`
(absolute differences, initial value 1). -/
def calc_bottom_bin (intensity : List (List ℤ)) (tolerance : ℤ) : ℕ :=
  1 + bottom_scan (abs_jump_count tolerance) intensity

/-- Value `bottom_bin` as computed by
`trdiUH.TRDIQAQC.set_ensemble_bottom_stats` for one ensemble (signed
differences, initial value 1). -/
def calc_bottom_bin_UH (ensemble : List (List ℤ)) (tolerance : ℤ) : ℕ :=
  1 + bottom_scan (signed_jump_count tolerance) ensemble

/-- Value `bin_1_distance` of `__calc_bottom_stats`:
`(data['fixed_leader']['bin_1_distance'] + transducer_depth) / 100` with
Python 2 integer (floor) division. -/
def bin_1_distance_calc (data : PD0Data) (transducer_depth : ℤ) : ℤ :=
  (data.bin_1_distance + transducer_depth).fdiv 100

/-- Value `bottom_stats['range_to_bottom']` of `__calc_bottom_stats`:
`bottom_bin * depth_cell_length / 100.0 + bin_1_distance` (exact rational
in place of the float). -/
def range_to_bottom (data : PD0Data) (transducer_depth : ℤ) : ℚ :=
  ((calc_bottom_bin data.echo_intensity 30 : ℤ) * data.depth_cell_length : ℤ) / (100 : ℚ) +
    (bin_1_distance_calc data transducer_depth : ℚ)

/-- Value `bottom_stats['side_lobe_start']` of `__calc_bottom_stats`:
`int(cos(beam_angle * pi/180) * range_to_bottom)`, with the library's
cosine value passed in as `cos_beam_angle`. -/
def side_lobe_start (data : PD0Data) (transducer_depth : ℤ) (cos_beam_angle : ℚ) : ℤ :=
  pyInt (cos_beam_angle * range_to_bottom data transducer_depth)

/-- State of a constructed `trdi.TRDIQAQC` object: the raw data plus the
fields cached by `__read_velocities` and `__calc_bottom_stats`. -/
structure Session where
  data : PD0Data
  transducer_depth : ℤ
  u : List ℚ
  v : List ℚ
  w : List ℚ
  current_speed : List ℚ
  current_direction : List ℚ
  bottom_bin : ℕ
  side_lobe : ℤ
  last_good_bin : ℤ
  last_good_counter : ℤ

/-- Constructor `trdi.TRDIQAQC.__init__(data, transducer_depth)` followed
by `__read_velocities` and `__calc_bottom_stats` (tolerance 30).
`mag u v` stands for the float `abs(u + 1j*v)` and `dir u v` for
`atan2(u, v) * 180/pi`; `cos_beam_angle` stands for
`cos(beam_angle * pi/180)`.  `last_good_bin = side_lobe_start - 1` and
`last_good_counter = int(last_good_bin - 1)`; no clamping is applied. -/
def mkSession (data : PD0Data) (transducer_depth : ℤ) (cos_beam_angle : ℚ)
    (mag dir : ℚ → ℚ → ℚ) : Session :=
  let sls := side_lobe_start data transducer_depth cos_beam_angle
  { data := data
    transducer_depth := transducer_depth
    u := data.velocity.map (fun bin => bin.1)
    v := data.velocity.map (fun bin => bin.2.1)
    w := data.velocity.map (fun bin => bin.2.2.1)
    current_speed := data.velocity.map (fun bin => mag bin.1 bin.2.1)
    current_direction := data.velocity.map (fun bin => dir bin.1 bin.2.1)
    bottom_bin := calc_bottom_bin data.echo_intensity 30
    side_lobe := sls
    last_good_bin := sls - 1
    last_good_counter := sls - 2 }

/-- Method `TRDIQAQC.correlation_magnitude_flags`: windows the correlation
data with `[:self.last_good_bin]` (not `last_good_counter`). -/
def correlation_magnitude_flags (s : Session)
    (good_tolerance questionable_tolerance : ℤ) : List ℤ :=
  correlation_magnitude_test (pyTake s.data.correlation s.last_good_bin)
    good_tolerance questionable_tolerance

/-- Method `TRDIQAQC.percent_good_flags`: windows the percent-good data
with `[:self.last_good_bin]` and feeds `itemgetter(2)` / `itemgetter(3)`
of each row to the pure test. -/
def percent_good_flags (s : Session) (percent_good percent_bad : ℤ) : List ℤ :=
  percent_good_test
    ((pyTake s.data.percent_good s.last_good_bin).map (fun bin => bin.2.2.1))
    ((pyTake s.data.percent_good s.last_good_bin).map (fun bin => bin.2.2.2))
    percent_good percent_bad

/-- Method `TRDIQAQC.current_speed_flags(max_speed=150)`: windows the
speeds with `[:self.last_good_counter]`; the method's own `max_speed`
parameter is never forwarded, so the pure test always runs with its
default 150. -/
def current_speed_flags (s : Session) (max_speed : ℚ) : List ℤ :=
  current_speed_test (pyTake s.current_speed s.last_good_counter) 150

/-- Method `TRDIQAQC.current_direction_flags`: windows the directions
with `[:self.last_good_counter]`. -/
def current_direction_flags (s : Session) : List ℤ :=
  current_direction_test (pyTake s.current_direction s.last_good_counter)

/-- Method `TRDIQAQC.horizontal_velocity_flags`: windows `u` and `v` with
`[:self.last_good_counter]`. -/
def horizontal_velocity_flags (s : Session) (max_u_vel max_v_vel : ℚ) : List ℤ :=
  horizontal_velocity_test (pyTake s.u s.last_good_counter)
    (pyTake s.v s.last_good_counter) max_u_vel max_v_vel

/-- Method `TRDIQAQC.vertical_velocity_flags`: windows `w` with
`[:self.last_good_counter]`. -/
def vertical_velocity_flags (s : Session) (max_w_velocity : ℚ) : List ℤ :=
  vertical_velocity_test (pyTake s.w s.last_good_counter) max_w_velocity

/-- Method `TRDIQAQC.error_velocity_flags`: windows the velocity rows
with `[:self.last_good_counter]` and feeds `itemgetter(3)` of each row to
the pure test. -/
def error_velocity_flags (s : Session)
    (questionable_error_velocity bad_error_velocity : ℚ) : List ℤ :=
  error_velocity_test ((pyTake s.data.velocity s.last_good_counter).map (fun bin => bin.2.2.2))
    questionable_error_velocity bad_error_velocity

/-- Method `TRDIQAQC.echo_intensity_flags(tolerance=2)`: windows the echo
data with `[:self.last_good_counter]`; the method's own `tolerance`
parameter is never forwarded, so the pure test always runs with its
default 2. -/
def echo_intensity_flags (s : Session) (tolerance : ℤ) : List ℤ :=
  echo_intensity_test (pyTake s.data.echo_intensity s.last_good_counter) 2

/-- Method `TRDIQAQC.range_drop_off_flags`: windows the echo data with
`[:self.last_good_counter]`. -/
def range_drop_off_flags (s : Session) (drop_off_limit : ℤ) : List ℤ :=
  range_drop_off_test (pyTake s.data.echo_intensity s.last_good_counter) drop_off_limit

/-- Method `TRDIQAQC.current_speed_gradient_flags`: applies the pure test
to the whole `self.current_speed` list, with no slicing at all. -/
def current_speed_gradient_flags (s : Session) (tolerance : ℚ) : List ℤ :=
  current_speed_gradient_test s.current_speed tolerance

/-- Flag drawn from the four codes the test battery can produce. -/
def validFlag (f : ℤ) : Bool := f == 1 || f == 2 || f == 3 || f == 4

/-- Stand-in for the library float `abs(u + 1j*v)` used on inputs whose
`v` component is 0, where the float value is exactly `|u|`. -/
def magAbs : ℚ → ℚ → ℚ := fun u _ => |u|

/-- Stand-in for the library float `atan2(u, v) * 180/pi`; the concrete
sessions below never read the direction field, so 0 is used. -/
def dirZero : ℚ → ℚ → ℚ := fun _ _ => 0

/-- Concrete 2-bin ensemble: flat echo intensity (no bottom jump), second
velocity bin far out of range, beam angle 0 (cosine exactly 1).  Its
bottom statistics are `bottom_bin = 2`, `range_to_bottom = 2`,
`side_lobe_start = 2`, `last_good_bin = 1`, `last_good_counter = 0`. -/
def dataA : PD0Data :=
  { velocity := [(0, 0, 0, 0), (300, 0, 0, 0)]
    correlation := [[120, 120, 120, 120], [120, 120, 120, 120]]
    echo_intensity := [[70, 70, 70, 70], [70, 70, 70, 70]]
    percent_good := [(0, 0, 10, 11), (0, 0, 10, 11)]
    bin_1_distance := 0
    depth_cell_length := 100
    beam_angle := 0
    depth_of_transducer := 0 }

/-- Session over `dataA` with transducer depth 0 and exact cosine 1. -/
def sessionA : Session := mkSession dataA 0 1 magAbs dirZero

/-- Concrete 1-bin ensemble with zero cell length: its bottom statistics
are `bottom_bin = 1`, `range_to_bottom = 0`, `side_lobe_start = 0`,
`last_good_bin = -1`, `last_good_counter = -2`. -/
def dataB : PD0Data :=
  { velocity := [(0, 0, 0, 0)]
    correlation := [[0, 0, 0, 0]]
    echo_intensity := [[0, 0, 0, 0]]
    percent_good := [(0, 0, 0, 0)]
    bin_1_distance := 0
    depth_cell_length := 0
    beam_angle := 0
    depth_of_transducer := 0 }

/-- Session over `dataB` with transducer depth 0 and exact cosine 1. -/
def sessionB : Session := mkSession dataB 0 1 magAbs dirZero

theorem bottom_scan_eq_takeWhile (jump : List ℤ → List ℤ → ℕ) (xs : List (List ℤ)) :
    bottom_scan jump xs =
      ((List.zip xs xs.tail).takeWhile (fun p => decide (jump p.1 p.2 < 2))).length := by
  induction xs with
  | nil => rfl
  | cons a tl ih =>
    cases tl with
    | nil => rfl
    | cons b rest =>
      rw [List.tail_cons, List.zip_cons_cons, List.takeWhile_cons]
      by_cases h : jump a b < 2
      · simp only [bottom_scan, if_pos h, h, List.tail_cons] at ih ⊢
        simp [ih]
        omega
      · simp [bottom_scan, h]

theorem all_map_validFlag {α : Type} (f : α → ℤ) (h : ∀ a, validFlag (f a) = true)
    (l : List α) : (l.map f).all validFlag = true := by
  rw [List.all_eq_true]
  intro x hx
  obtain ⟨a, _, rfl⟩ := List.mem_map.mp hx
  exact h a

theorem pyTake_zero {α : Type} (xs : List α) : pyTake xs 0 = [] := by simp [pyTake]

theorem sessionA_last_good_counter : sessionA.last_good_counter = 0 := by
  show side_lobe_start dataA 0 1 - 2 = 0
  have hb : calc_bottom_bin dataA.echo_intensity 30 = 2 := by decide
  have hc : dataA.depth_cell_length = 100 := rfl
  have hd : bin_1_distance_calc dataA 0 = 0 := by decide
  have hr : range_to_bottom dataA 0 = 2 := by rw [range_to_bottom, hb, hc, hd]; norm_num
  rw [side_lobe_start, hr]
  norm_num [pyInt]

theorem sessionA_last_good_bin : sessionA.last_good_bin = 1 := by
  have h : side_lobe_start dataA 0 1 - 2 = 0 := sessionA_last_good_counter
  show side_lobe_start dataA 0 1 - 1 = 1
  omega

theorem sessionB_last_good_counter : sessionB.last_good_counter = -2 := by
  show side_lobe_start dataB 0 1 - 2 = -2
  have hb : calc_bottom_bin dataB.echo_intensity 30 = 1 := by decide
  have hc : dataB.depth_cell_length = 0 := rfl
  have hd : bin_1_distance_calc dataB 0 = 0 := by decide
  have hr : range_to_bottom dataB 0 = 0 := by rw [range_to_bottom, hb, hc, hd]; norm_num
  rw [side_lobe_start, hr]
  norm_num [pyInt]

/-- C1 (counterexample): on sessionA the computed last_good_counter is 0,
yet current_speed_gradient_flags inspects the full speed profile (two
bins, the second far out of tolerance) and returns two flags, while the
claimed slice to [0, last_good_counter) would see no bins and return only
the leading literal flag; likewise correlation_magnitude_flags windows by
last_good_bin = 1 and returns one flag where the claimed window is empty. -/
theorem speed_gradient_ignores_window_cex :
    sessionA.last_good_counter = 0 ∧
    current_speed_gradient_flags sessionA 6 = [ADCP_FLAGS_good, ADCP_FLAGS_bad] ∧
    current_speed_gradient_test (pyTake sessionA.current_speed sessionA.last_good_counter) 6
      = [ADCP_FLAGS_good] ∧
    correlation_magnitude_flags sessionA 115 64 = [ADCP_FLAGS_good] ∧
    correlation_magnitude_test (pyTake sessionA.data.correlation sessionA.last_good_counter)
      115 64 = [] := by
  refine ⟨sessionA_last_good_counter, ?_, ?_, ?_, ?_⟩
  · show current_speed_gradient_test [0, 300] 6 = _
    norm_num [current_speed_gradient_test, ADCP_FLAGS_good, ADCP_FLAGS_bad]
  · rw [sessionA_last_good_counter, pyTake_zero]
    rfl
  · simp only [correlation_magnitude_flags]
    rw [sessionA_last_good_bin]
    rfl
  · rw [sessionA_last_good_counter, pyTake_zero]
    rfl

/-- C1 (amended): the current-speed, current-direction, horizontal- and
vertical-velocity, error-velocity, echo-intensity and range-drop-off
accessors compute their flags only from the Python slice
[:last_good_counter] of their inputs (two sessions agreeing on that
window produce identical flags); the correlation-magnitude and
percent-good accessors instead window by [:last_good_bin] (one bin more);
and the current-speed-gradient accessor depends on the entire unsliced
speed profile. -/
theorem windowed_accessor_windows :
    (∀ (s₁ s₂ : Session) (m : ℚ),
      pyTake s₁.current_speed s₁.last_good_counter =
        pyTake s₂.current_speed s₂.last_good_counter →
      current_speed_flags s₁ m = current_speed_flags s₂ m) ∧
    (∀ s₁ s₂ : Session,
      pyTake s₁.current_direction s₁.last_good_counter =
        pyTake s₂.current_direction s₂.last_good_counter →
      current_direction_flags s₁ = current_direction_flags s₂) ∧
    (∀ (s₁ s₂ : Session) (mu mv : ℚ),
      pyTake s₁.u s₁.last_good_counter = pyTake s₂.u s₂.last_good_counter →
      pyTake s₁.v s₁.last_good_counter = pyTake s₂.v s₂.last_good_counter →
      horizontal_velocity_flags s₁ mu mv = horizontal_velocity_flags s₂ mu mv) ∧
    (∀ (s₁ s₂ : Session) (mw : ℚ),
      pyTake s₁.w s₁.last_good_counter = pyTake s₂.w s₂.last_good_counter →
      vertical_velocity_flags s₁ mw = vertical_velocity_flags s₂ mw) ∧
    (∀ (s₁ s₂ : Session) (qe be : ℚ),
      pyTake s₁.data.velocity s₁.last_good_counter =
        pyTake s₂.data.velocity s₂.last_good_counter →
      error_velocity_flags s₁ qe be = error_velocity_flags s₂ qe be) ∧
    (∀ (s₁ s₂ : Session) (t : ℤ),
      pyTake s₁.data.echo_intensity s₁.last_good_counter =
        pyTake s₂.data.echo_intensity s₂.last_good_counter →
      echo_intensity_flags s₁ t = echo_intensity_flags s₂ t) ∧
    (∀ (s₁ s₂ : Session) (d : ℤ),
      pyTake s₁.data.echo_intensity s₁.last_good_counter =
        pyTake s₂.data.echo_intensity s₂.last_good_counter →
      range_drop_off_flags s₁ d = range_drop_off_flags s₂ d) ∧
    (∀ (s₁ s₂ : Session) (g q : ℤ),
      pyTake s₁.data.correlation s₁.last_good_bin =
        pyTake s₂.data.correlation s₂.last_good_bin →
      correlation_magnitude_flags s₁ g q = correlation_magnitude_flags s₂ g q) ∧
    (∀ (s₁ s₂ : Session) (pg pb : ℤ),
      pyTake s₁.data.percent_good s₁.last_good_bin =
        pyTake s₂.data.percent_good s₂.last_good_bin →
      percent_good_flags s₁ pg pb = percent_good_flags s₂ pg pb) ∧
    (∀ (s₁ s₂ : Session) (t : ℚ), s₁.current_speed = s₂.current_speed →
      current_speed_gradient_flags s₁ t = current_speed_gradient_flags s₂ t) := by
  refine ⟨?_, ?_, ?_, ?_, ?_, ?_, ?_, ?_, ?_, ?_⟩
  · intro s₁ s₂ m hw
    simp only [current_speed_flags, hw]
  · intro s₁ s₂ hw
    simp only [current_direction_flags, hw]
  · intro s₁ s₂ mu mv hu hv
    simp only [horizontal_velocity_flags, hu, hv]
  · intro s₁ s₂ mw hw
    simp only [vertical_velocity_flags, hw]
  · intro s₁ s₂ qe be hw
    simp only [error_velocity_flags, hw]
  · intro s₁ s₂ t hw
    simp only [echo_intensity_flags, hw]
  · intro s₁ s₂ d hw
    simp only [range_drop_off_flags, hw]
  · intro s₁ s₂ g q hw
    simp only [correlation_magnitude_flags, hw]
  · intro s₁ s₂ pg pb hw
    simp only [percent_good_flags, hw]
  · intro s₁ s₂ t hw
    simp only [current_speed_gradient_flags, hw]

/-- C1 (amended, witness): the window-dependence statement applied to
sessionA, with the window-agreement hypothesis discharged by rfl. -/
theorem windowed_accessor_windows_witness :
    current_speed_flags sessionA 150 = current_speed_flags sessionA 150 :=
  windowed_accessor_windows.1 sessionA sessionA 150 rfl

/-- C2 (counterexample): sessionA has last_good_counter = 0 ≤ 0, yet the
echo-intensity accessor returns the non-empty flag sequence [good]
(echo_intensity_test emits its leading literal good flag even on an empty
window). -/
theorem degenerate_window_not_empty_cex :
    sessionA.last_good_counter ≤ 0 ∧
    echo_intensity_flags sessionA 2 = [ADCP_FLAGS_good] ∧
    ([ADCP_FLAGS_good] : List ℤ) ≠ ([] : List ℤ) := by
  refine ⟨by rw [sessionA_last_good_counter], ?_, by decide⟩
  simp only [echo_intensity_flags]
  rw [sessionA_last_good_counter, pyTake_zero]
  rfl

/-- C2 (amended): when the computed last_good_counter is exactly 0, the
six accessors that window by it return empty flag sequences and raise no
error (all functions are total); but the echo-intensity accessor returns
the one-element sequence [good], the speed-gradient accessor returns a
sequence headed by good computed from the full profile, and the
correlation-magnitude and percent-good accessors window by
last_good_bin = 1 and return one flag per available bin.  (For strictly
negative last_good_counter the Python slice instead drops trailing bins,
so those accessors need not return empty sequences either.) -/
theorem degenerate_window_outputs (data : PD0Data) (td : ℤ) (cosA : ℚ)
    (mag dir : ℚ → ℚ → ℚ)
    (h : (mkSession data td cosA mag dir).last_good_counter = 0) :
    (∀ m, current_speed_flags (mkSession data td cosA mag dir) m = []) ∧
    current_direction_flags (mkSession data td cosA mag dir) = [] ∧
    (∀ mu mv, horizontal_velocity_flags (mkSession data td cosA mag dir) mu mv = []) ∧
    (∀ mw, vertical_velocity_flags (mkSession data td cosA mag dir) mw = []) ∧
    (∀ qe be, error_velocity_flags (mkSession data td cosA mag dir) qe be = []) ∧
    (∀ d, range_drop_off_flags (mkSession data td cosA mag dir) d = []) ∧
    (∀ t, echo_intensity_flags (mkSession data td cosA mag dir) t = [ADCP_FLAGS_good]) ∧
    (∀ t, (current_speed_gradient_flags (mkSession data td cosA mag dir) t).headI =
      ADCP_FLAGS_good) ∧
    (∀ g q, (correlation_magnitude_flags (mkSession data td cosA mag dir) g q).length =
      min 1 data.correlation.length) ∧
    (∀ pg pb, (percent_good_flags (mkSession data td cosA mag dir) pg pb).length =
      min 1 data.percent_good.length) := by
  have hb : (mkSession data td cosA mag dir).last_good_bin = 1 := by
    have h' : side_lobe_start data td cosA - 2 = 0 := h
    show side_lobe_start data td cosA - 1 = 1
    omega
  refine ⟨?_, ?_, ?_, ?_, ?_, ?_, ?_, ?_, ?_, ?_⟩
  · intro m
    simp only [current_speed_flags, h, pyTake_zero]
    rfl
  · simp only [current_direction_flags, h, pyTake_zero]
    rfl
  · intro mu mv
    simp only [horizontal_velocity_flags, h, pyTake_zero]
    rfl
  · intro mw
    simp only [vertical_velocity_flags, h, pyTake_zero]
    rfl
  · intro qe be
    simp only [error_velocity_flags, h, pyTake_zero]
    rfl
  · intro d
    simp only [range_drop_off_flags, h, pyTake_zero]
    rfl
  · intro t
    simp only [echo_intensity_flags, h, pyTake_zero]
    rfl
  · intro t
    simp only [current_speed_gradient_flags, current_speed_gradient_test]
    rfl
  · intro g q
    simp only [correlation_magnitude_flags, correlation_magnitude_test, hb, pyTake,
      List.length_map]
    simp [List.length_take]
    rfl
  · intro pg pb
    simp only [percent_good_flags, percent_good_test, hb, pyTake, List.length_map,
      List.length_zip]
    simp [List.length_take]
    rfl

/-- C2 (amended, witness): on sessionA (computed last_good_counter 0) the
current-speed accessor returns the empty flag sequence. -/
theorem degenerate_window_outputs_witness :
    current_speed_flags (mkSession dataA 0 1 magAbs dirZero) 150 = [] :=
  (degenerate_window_outputs dataA 0 1 magAbs dirZero sessionA_last_good_counter).1 150

/-- C3 (counterexample): on sessionB (one bin, zero cell length) the
cached last_good_counter is -2: it is not clamped to 0 and is negative. -/
theorem last_good_counter_negative_cex :
    sessionB.last_good_counter = -2 ∧ ¬ (0 ≤ sessionB.last_good_counter) := by
  refine ⟨sessionB_last_good_counter, ?_⟩
  rw [sessionB_last_good_counter]
  decide

/-- C3 (amended): after session construction the cached bottom statistics
satisfy last_good_counter = last_good_bin - 1 and last_good_bin =
side_lobe_start - 1, with no clamping applied anywhere; the invariant
0 ≤ last_good_counter is not enforced and fails on sessionB. -/
theorem last_good_counter_unclamped (data : PD0Data) (td : ℤ) (cosA : ℚ)
    (mag dir : ℚ → ℚ → ℚ) :
    (mkSession data td cosA mag dir).last_good_counter =
      (mkSession data td cosA mag dir).last_good_bin - 1 ∧
    (mkSession data td cosA mag dir).last_good_bin =
      side_lobe_start data td cosA - 1 := by
  constructor
  · show side_lobe_start data td cosA - 2 = side_lobe_start data td cosA - 1 - 1
    ring
  · rfl

/-- C4 (counterexample): on a 40-count DROP in echo intensity on both
beams, the absolute difference exceeds 30, so the claimed algorithm stops
with bottom_bin = 1 (as trdi.py does), but trdiUH.py's
set_ensemble_bottom_stats scan — also cited by the claim — uses the
signed difference, advances past the pair, and returns 2. -/
theorem bottom_scan_UH_signed_cex :
    abs_jump_count 30 [100, 100] [60, 60] = 2 ∧
    calc_bottom_bin [[100, 100], [60, 60]] 30 = 1 ∧
    calc_bottom_bin_UH [[100, 100], [60, 60]] 30 = 2 ∧
    (2 : ℕ) ≠ 1 := by decide

/-- C4 (amended): the trdi.py scan starts at bottom_bin = 1, advances
once per adjacent pair on which fewer than two beams have an ABSOLUTE
echo difference above tolerance, and stops at the first pair where at
least two beams do: bottom_bin is one more than the number of pairs
integrated before the jump; the trdiUH.py variant is identical except
that it counts beams by the SIGNED difference curr - prev, so a drop in
intensity never triggers its stop condition. -/
theorem bottom_scan_characterization (intensity : List (List ℤ)) (tolerance : ℤ) :
    calc_bottom_bin intensity tolerance =
      1 + ((List.zip intensity intensity.tail).takeWhile
        (fun p => decide (abs_jump_count tolerance p.1 p.2 < 2))).length ∧
    calc_bottom_bin_UH intensity tolerance =
      1 + ((List.zip intensity intensity.tail).takeWhile
        (fun p => decide (signed_jump_count tolerance p.1 p.2 < 2))).length := by
  constructor
  · rw [calc_bottom_bin, bottom_scan_eq_takeWhile]
  · rw [calc_bottom_bin_UH, bottom_scan_eq_takeWhile]

/-- C5 (counterexample): an ensemble with no bins at all has no adjacent
bin pair, so the claim's no-jump clause applies and demands bottom_bin =
total bin count = 0; the scan, whose accumulator starts at 1, returns 1. -/
theorem bottom_bin_empty_ensemble_cex :
    List.zip ([] : List (List ℤ)) ([] : List (List ℤ)).tail = [] ∧
    calc_bottom_bin ([] : List (List ℤ)) 30 = 1 ∧
    ([] : List (List ℤ)).length = 0 ∧
    (1 : ℕ) ≠ 0 := by decide

/-- C5 (amended): for every ensemble with at least one bin in which no
adjacent pair has two or more beams exceeding the tolerance, bottom_bin
equals the total bin count; and for every ensemble with fewer than 2
bins, bottom_bin equals 1. -/
theorem bottom_bin_no_jump_and_degenerate (intensity : List (List ℤ)) (tolerance : ℤ) :
    (intensity ≠ [] →
      (∀ p ∈ List.zip intensity intensity.tail, abs_jump_count tolerance p.1 p.2 < 2) →
      calc_bottom_bin intensity tolerance = intensity.length) ∧
    (intensity.length < 2 → calc_bottom_bin intensity tolerance = 1) := by
  constructor
  · intro hne hall
    rw [(bottom_scan_characterization intensity tolerance).1]
    rw [List.takeWhile_eq_self_iff.mpr (by intro x hx; exact decide_eq_true (hall x hx))]
    rw [List.length_zip, List.length_tail]
    have : 0 < intensity.length := List.length_pos.mpr hne
    omega
  · intro hlen
    match intensity, hlen with
    | [], _ => rfl
    | [a], _ => rfl

/-- C5 (witness): a 1-bin ensemble has no adjacent pairs and fewer than 2
bins, so bottom_bin = 1 = bin count. -/
theorem bottom_bin_no_jump_and_degenerate_witness :
    calc_bottom_bin [[5, 5, 5, 5]] 30 = 1 :=
  (bottom_bin_no_jump_and_degenerate [[5, 5, 5, 5]] 30).2 (by decide)

/-- C6 (counterexample): sibling input arrays of unequal length do not
produce an error: izip silently truncates to the shorter array, so the
longer array's trailing element (u = 200 cm/s, which would flag bad, and
the second percent-good counter) is dropped without any report and a
plain one-flag list is returned. -/
theorem sibling_arrays_silent_truncation_cex :
    horizontal_velocity_test [0, 200] [0] 150 150 = [ADCP_FLAGS_good] ∧
    percent_good_test [21, 21] [5] 21 17 = [ADCP_FLAGS_good] := by
  constructor <;> rfl

/-- C6 (amended): with sibling arrays of unequal length the tests pair
the arrays up to the shorter length and return one flag per pair: the
output length is the minimum of the two input lengths, with no error. -/
theorem sibling_arrays_truncate_length (u v : List ℚ) (mu mv : ℚ)
    (ob ag : List ℤ) (pg pb : ℤ) :
    (horizontal_velocity_test u v mu mv).length = min u.length v.length ∧
    (percent_good_test ob ag pg pb).length = min ob.length ag.length := by
  constructor <;> simp [horizontal_velocity_test, percent_good_test]

/-- C7: with the default thresholds, percent_good_test flags position i
good iff the sum of the two index-aligned counters is at least 21, bad
iff it is at most 17, and suspect iff it is strictly between 17 and 21. -/
theorem percent_good_classification (one_bad all_good : List ℤ) (i : ℕ)
    (h1 : i < one_bad.length) (h2 : i < all_good.length) :
    ((percent_good_test one_bad all_good 21 17)[i]? = some ADCP_FLAGS_good ↔
      21 ≤ one_bad[i] + all_good[i]) ∧
    ((percent_good_test one_bad all_good 21 17)[i]? = some ADCP_FLAGS_bad ↔
      one_bad[i] + all_good[i] ≤ 17) ∧
    ((percent_good_test one_bad all_good 21 17)[i]? = some ADCP_FLAGS_suspect ↔
      17 < one_bad[i] + all_good[i] ∧ one_bad[i] + all_good[i] < 21) := by
  have hz : i < (List.zip one_bad all_good).length := by
    rw [List.length_zip]; omega
  have key : (percent_good_test one_bad all_good 21 17)[i]? =
      some (if 21 ≤ one_bad[i] + all_good[i] then ADCP_FLAGS_good
        else if one_bad[i] + all_good[i] ≤ 17 then ADCP_FLAGS_bad
        else ADCP_FLAGS_suspect) := by
    rw [percent_good_test, List.getElem?_eq_getElem (by simpa using hz), List.getElem_map,
      List.getElem_zip]
  rw [key]
  refine ⟨?_, ?_, ?_⟩ <;>
    (split_ifs with h h' <;>
      simp [ADCP_FLAGS_good, ADCP_FLAGS_bad, ADCP_FLAGS_suspect] <;> omega)

/-- C7 (witness): counter sums 21, 17 and 19 flag good, bad and suspect
respectively. -/
theorem percent_good_classification_witness :
    (percent_good_test [21, 17, 19] [0, 0, 0] 21 17)[0]? = some ADCP_FLAGS_good ∧
    (percent_good_test [21, 17, 19] [0, 0, 0] 21 17)[1]? = some ADCP_FLAGS_bad ∧
    (percent_good_test [21, 17, 19] [0, 0, 0] 21 17)[2]? = some ADCP_FLAGS_suspect :=
  ⟨((percent_good_classification [21, 17, 19] [0, 0, 0] 0 (by decide) (by decide)).1).mpr
      (by decide),
   ((percent_good_classification [21, 17, 19] [0, 0, 0] 1 (by decide) (by decide)).2.1).mpr
      (by decide),
   ((percent_good_classification [21, 17, 19] [0, 0, 0] 2 (by decide) (by decide)).2.2).mpr
      (by decide)⟩

/-- C8: for a non-empty echo-intensity sequence the first output flag is
good, the output has exactly one flag per input bin (index alignment),
and the flag at position i + 1 classifies the adjacent pair (i, i + 1) by
the number of beams whose drop prev - curr is strictly below tolerance:
0 beams good, exactly 1 suspect, 2 or more bad. -/
theorem echo_intensity_alignment (echo_intensities : List (List ℤ)) (tolerance : ℤ)
    (hne : echo_intensities ≠ []) :
    (echo_intensity_test echo_intensities tolerance)[0]? = some ADCP_FLAGS_good ∧
    (echo_intensity_test echo_intensities tolerance).length = echo_intensities.length ∧
    (∀ (i : ℕ) (hi : i + 1 < echo_intensities.length),
      (echo_intensity_test echo_intensities tolerance)[i + 1]? =
        some (echo_pair_flag tolerance echo_intensities[i] echo_intensities[i + 1])) := by
  refine ⟨?_, ?_, ?_⟩
  · rw [echo_intensity_test, List.getElem?_cons_zero, ADCP_FLAGS_good]
  · rw [echo_intensity_test, List.length_cons, List.length_map, List.length_zip,
      List.length_tail]
    have : 0 < echo_intensities.length := List.length_pos.mpr hne
    omega
  · intro i hi
    have hz : i < (List.zip echo_intensities echo_intensities.tail).length := by
      rw [List.length_zip, List.length_tail]; omega
    rw [echo_intensity_test, List.getElem?_cons_succ,
      List.getElem?_eq_getElem (by simpa using hz), List.getElem_map, List.getElem_zip,
      List.getElem_tail]

/-- C8 (witness): a concrete 2-bin input, flagged good at the head and at
the adjacent pair (no beam drop is below tolerance 2). -/
theorem echo_intensity_alignment_witness :
    (echo_intensity_test [[10, 10], [10, 10]] 2)[0]? = some ADCP_FLAGS_good ∧
    (echo_intensity_test [[10, 10], [10, 10]] 2)[1]? =
      some (echo_pair_flag 2 [10, 10] [10, 10]) :=
  ⟨(echo_intensity_alignment [[10, 10], [10, 10]] 2 (by decide)).1,
   (echo_intensity_alignment [[10, 10], [10, 10]] 2 (by decide)).2.2 0 (by decide)⟩

/-- C9: current_direction_test adds 360 once to each negative direction
and flags the element bad iff the normalized value is strictly greater
than 360, otherwise good; normalization maps -10 to 350 and is the
identity on [0, 360). -/
theorem current_direction_normalization :
    (∀ ds : List ℚ, current_direction_test ds =
      ds.map (fun d =>
        if 360 < normalize_direction d then ADCP_FLAGS_bad else ADCP_FLAGS_good)) ∧
    normalize_direction (-10) = 350 ∧
    (∀ x : ℚ, 0 ≤ x → x < 360 → normalize_direction x = x) := by
  refine ⟨?_, ?_, ?_⟩
  · intro ds
    rw [current_direction_test]
    congr 1
    funext d
    split_ifs with h h' <;> first | rfl | (exfalso; linarith)
  · norm_num [normalize_direction]
  · intro x h0 hlt
    rw [normalize_direction, if_neg (not_lt.mpr h0)]

/-- C9 (witness): normalization leaves 5 degrees (a value in [0, 360))
unchanged. -/
theorem current_direction_normalization_witness : normalize_direction 5 = 5 :=
  current_direction_normalization.2.2 5 (by norm_num) (by norm_num)

/-- C10: on every input, every test function of the battery produces only
flags drawn from {good, no_test, suspect, bad} = {1, 2, 3, 4}; the
missing_data code 9, though defined in the flag enumeration, fails the
validFlag check and is therefore never produced. -/
theorem flags_within_enumeration :
    validFlag ADCP_FLAGS_missing_data = false ∧
    (∀ (α : Type) (e : α), validFlag (battery_flag_test e) = true) ∧
    (∀ (α : Type) (e : α), validFlag (checksum_test e) = true) ∧
    (∀ b : String, validFlag (bit_test b) = true) ∧
    (∀ p r mp mr : ℚ, validFlag (orientation_test p r mp mr) = true) ∧
    (∀ sv mn mx : ℚ, validFlag (sound_speed_test sv mn mx) = true) ∧
    (∀ (α : Type) (e : α), validFlag (noise_floor_test e) = true) ∧
    (∀ (α : Type) (e : α), validFlag (signal_strength_flag e) = true) ∧
    (∀ (α : Type) (e : α), validFlag (signal_to_noise_test e) = true) ∧
    (∀ (α : Type) (e : α), validFlag (stuck_sensor_test e) = true) ∧
    (∀ ec g t, (correlation_magnitude_test ec g t).all validFlag = true) ∧
    (∀ ob ag pg pb, (percent_good_test ob ag pg pb).all validFlag = true) ∧
    (∀ cs ms, (current_speed_test cs ms).all validFlag = true) ∧
    (∀ cd, (current_direction_test cd).all validFlag = true) ∧
    (∀ u v mu mv, (horizontal_velocity_test u v mu mv).all validFlag = true) ∧
    (∀ w mw, (vertical_velocity_test w mw).all validFlag = true) ∧
    (∀ ev sev bev, (error_velocity_test ev sev bev).all validFlag = true) ∧
    (∀ ei t, (echo_intensity_test ei t).all validFlag = true) ∧
    (∀ ei d, (range_drop_off_test ei d).all validFlag = true) ∧
    (∀ cs t, (current_speed_gradient_test cs t).all validFlag = true) := by
  refine ⟨rfl, fun α e => rfl, fun α e => rfl, ?_, ?_, ?_, fun α e => rfl, fun α e => rfl,
    fun α e => rfl, fun α e => rfl, ?_, ?_, ?_, ?_, ?_, ?_, ?_, ?_, ?_, ?_⟩
  · intro b
    by_cases h : b = "0" <;> simp [bit_test, h, validFlag, ADCP_FLAGS_good, ADCP_FLAGS_bad]
  · intro p r mp mr
    rw [orientation_test]
    split_ifs <;> rfl
  · intro sv mn mx
    rw [sound_speed_test]
    split_ifs <;> rfl
  · intro ec g t
    apply all_map_validFlag
    intro bin
    simp only [corr_bin_flag]
    split_ifs <;> rfl
  · intro ob ag pg pb
    apply all_map_validFlag
    intro p
    split_ifs <;> rfl
  · intro cs ms
    apply all_map_validFlag
    intro sp
    split_ifs <;> rfl
  · intro cd
    apply all_map_validFlag
    intro d
    split_ifs <;> rfl
  · intro u v mu mv
    apply all_map_validFlag
    intro p
    split_ifs <;> rfl
  · intro w mw
    apply all_map_validFlag
    intro x
    split_ifs <;> rfl
  · intro ev sev bev
    apply all_map_validFlag
    intro x
    split_ifs <;> rfl
  · intro ei t
    rw [echo_intensity_test, List.all_cons]
    have : ∀ p : List ℤ × List ℤ, validFlag (echo_pair_flag t p.1 p.2) = true := by
      intro p
      simp only [echo_pair_flag]
      split_ifs <;> rfl
    simp only [all_map_validFlag _ this]
    rfl
  · intro ei d
    apply all_map_validFlag
    intro bin
    split_ifs <;> rfl
  · intro cs t
    rw [current_speed_gradient_test, List.all_cons]
    have : ∀ p : ℚ × ℚ,
        validFlag (if |p.2 - p.1| ≤ t then ADCP_FLAGS_good else ADCP_FLAGS_bad) = true := by
      intro p
      split_ifs <;> rfl
    simp only [all_map_validFlag _ this]
    rfl
